import Mathlib

/-!
Verification development for the tmm CLI (src/index.ts): a shallow embedding
of the output differ, the shell-command builder, the settle detector
(executeAndPrintPaneDiff) and the run/keys/tail subcommand dispatch,
together with theorems checking the design specification against it.

JavaScript strings are modelled as lists of characters; time inside the
settle detector is explicit (Date.now() is a natural number, each sleep(100)
advances it by 100 and every read is instantaneous); a fallible external
call is modelled as an Option, none standing for the underlying promise
rejecting.
-/

/-- JavaScript strings, modelled as lists of characters. -/
abbrev JStr := List Char

/-- Embed a Lean string literal as a JStr. -/
def js (s : String) : JStr := s.data

/-- Newline character. -/
def nlChar : Char := Char.ofNat 10

/-- Single-quote character. -/
def squote : Char := Char.ofNat 39

/-- Double-quote character. -/
def dquote : Char := Char.ofNat 34

/-- Carriage-return character. -/
def crChar : Char := Char.ofNat 13

/-- JavaScript whitespace characters, as used by trim and trimEnd. -/
def isJsWs (c : Char) : Bool :=
  c == ' ' || c == Char.ofNat 9 || c == nlChar || c == crChar ||
  c == Char.ofNat 11 || c == Char.ofNat 12 || c == Char.ofNat 160 ||
  c == Char.ofNat 65279

/-- Model of JavaScript String.prototype.trimEnd. -/
def trimEnd (s : JStr) : JStr := (s.reverse.dropWhile isJsWs).reverse

/-- Model of JavaScript String.prototype.trim. -/
def jsTrim (s : JStr) : JStr := (trimEnd s).dropWhile isJsWs

/-- Model of JavaScript String.prototype.split with separator newline
(total on every string; the empty string yields one empty piece). -/
def splitNl : JStr → List JStr
  | [] => [[]]
  | c :: cs =>
    if c = nlChar then [] :: splitNl cs
    else
      match splitNl cs with
      | [] => [[c]]
      | l :: ls => (c :: l) :: ls

/-- src/index.ts splitLines: the empty string gives no lines, any other
string is split on newline. -/
def splitLines (value : JStr) : List JStr :=
  if value = [] then [] else splitNl value

/-- Model of JavaScript Array.prototype.join with a separator string. -/
def joinSep (sep : JStr) : List JStr → JStr
  | [] => []
  | [x] => x
  | x :: y :: xs => x ++ sep ++ joinSep sep (y :: xs)

/-- The while loop of src/index.ts diffLines: advance an index while lines at
the same position agree, then keep the rest of the after lines (afterLines.slice idx). -/
def dropCommon : List JStr → List JStr → List JStr
  | b :: bs, a :: afs => if b = a then dropCommon bs afs else a :: afs
  | _, afs => afs

/-- src/index.ts diffLines: the suffix of after past the common line prefix
with before, joined on newline and right-trimmed. -/
def diffLines (before after : JStr) : JStr :=
  trimEnd (joinSep [nlChar] (dropCommon (splitLines before) (splitLines after)))

/-- Specification-side function: length of the longest common prefix of two
line sequences. -/
def longestCommonPrefixLen : List JStr → List JStr → Nat
  | x :: xs, y :: ys => if x = y then longestCommonPrefixLen xs ys + 1 else 0
  | _, _ => 0

/-- Numeric value of a list of decimal-digit characters. -/
def digitsToNat (ds : List Char) : Nat :=
  ds.foldl (fun acc c => 10 * acc + (c.toNat - 48)) 0

/-- Model of JavaScript Number.parseInt(s, 10): skip leading whitespace, read
an optional sign, then the longest decimal-digit prefix; none models NaN. -/
def jsParseInt (s : JStr) : Option Int :=
  let s1 := s.dropWhile isJsWs
  match s1 with
  | c :: rest =>
    if c = '-' then
      let ds := rest.takeWhile (fun d => d.isDigit)
      if ds = [] then none else some (-(digitsToNat ds : Int))
    else if c = '+' then
      let ds := rest.takeWhile (fun d => d.isDigit)
      if ds = [] then none else some (digitsToNat ds : Int)
    else
      let ds := s1.takeWhile (fun d => d.isDigit)
      if ds = [] then none else some (digitsToNat ds : Int)
  | [] => none

/-- The global single-quote replacement inside src/index.ts shellEscape: each
single quote becomes the five-character quote, double quote, quote, double
quote, quote idiom. -/
def replaceQuotes : JStr → JStr
  | [] => []
  | c :: cs =>
    if c = squote then
      squote :: dquote :: squote :: dquote :: squote :: replaceQuotes cs
    else c :: replaceQuotes cs

/-- src/index.ts shellEscape: wrap the quote-replaced value in single quotes. -/
def shellEscape (value : JStr) : JStr :=
  squote :: (replaceQuotes value ++ [squote])

/-- src/index.ts buildRunCommand: a single argument passes through verbatim,
otherwise each argument is shell-escaped and they are joined with spaces. -/
def buildRunCommand (commandArgs : List JStr) : JStr :=
  if commandArgs.length = 1 then commandArgs.headD []
  else joinSep (js " ") (commandArgs.map shellEscape)

/-- src/index.ts capturePane: pane text with carriage returns removed; none
models the underlying capture-pane call failing (callers attach a catch). -/
def capturePane (raw : Option JStr) : Option JStr :=
  raw.map (fun s => s.filter (fun c => c ≠ crChar))

/-- src/index.ts getPaneCurrentCommand: foreground-process name, with a
failing read caught into the empty string, then trimmed. -/
def getPaneCurrentCommand (raw : Option JStr) : JStr :=
  jsTrim (raw.getD [])

/-- src/index.ts getActivePaneId: pane id text, with a failing read caught
into the empty string, then trimmed. -/
def getActivePaneId (raw : Option JStr) : JStr :=
  jsTrim (raw.getD [])

/-- Observable external pane/multiplexer effects of one invocation. -/
inductive Event where
  | capturePane (start : Int)
  | readBaseline
  | act
  | poll (t : Nat)
  | listSessions
  | resolvePane
  deriving DecidableEq

/-- One key or text send issued to a pane. -/
inductive SendEvent where
  | sendLiteral (text : JStr)
  | sendKey (token : JStr)
  deriving DecidableEq

/-- The run subcommand's mutating action: one literal-text send of the built
command line, then one separate C-m submit send. -/
def runAction (commandText : JStr) : List SendEvent :=
  [SendEvent.sendLiteral commandText, SendEvent.sendKey (js "C-m")]

/-- The keys subcommand's mutating action: the raw key tokens forwarded in a
single send-keys call, one token each, no submit appended. -/
def keysAction (keyTokens : List JStr) : List SendEvent :=
  keyTokens.map SendEvent.sendKey

/-- Environment of one settle cycle: the raw results of the external pane
reads (none models a failing underlying call) and whether the caller-supplied
mutating action succeeds (false models it throwing). -/
structure PaneEnv where
  captureBefore : Option JStr
  captureAfter : Option JStr
  shellRead : Option JStr
  poll : Nat → Option JStr
  sendOk : Bool

/-- Result of the settle watch loop: the times of its foreground-process
polls, the timed-out flag, and the time at which the loop exited. -/
structure WatchResult where
  polls : List Nat
  timedOut : Bool
  exitTime : Nat
  deriving DecidableEq

/-- The while loop of src/index.ts executeAndPrintPaneDiff.  Date.now() is t,
each sleep(100) advances it by 100, reads are instantaneous.  The fuel
argument only bounds the recursion; each iteration advances t by 100 toward
the deadline, so fuel := deadline never runs out before the deadline check
stops the loop. -/
def watchLoopAux (pollRead : Nat → Option JStr) (shellCommand : JStr)
    (deadline startedAt stableMs : Nat) :
    Nat → Nat → Bool → Nat → WatchResult
  | 0, t, _, _ => ⟨[], true, t⟩
  | fuel + 1, t, changedFromShell, lastShellSeenAt =>
    if t < deadline then
      let currentCommand := getPaneCurrentCommand (pollRead t)
      if currentCommand ≠ shellCommand then
        let r := watchLoopAux pollRead shellCommand deadline startedAt stableMs
          fuel (t + 100) true 0
        ⟨t :: r.polls, r.timedOut, r.exitTime⟩
      else if changedFromShell = false ∧ t - startedAt < 250 then
        let r := watchLoopAux pollRead shellCommand deadline startedAt stableMs
          fuel (t + 100) changedFromShell lastShellSeenAt
        ⟨t :: r.polls, r.timedOut, r.exitTime⟩
      else
        let lastSeen := if lastShellSeenAt = 0 then t else lastShellSeenAt
        if stableMs ≤ t - lastSeen then ⟨[t], false, t⟩
        else
          let r := watchLoopAux pollRead shellCommand deadline startedAt stableMs
            fuel (t + 100) changedFromShell lastSeen
          ⟨t :: r.polls, r.timedOut, r.exitTime⟩
    else ⟨[], true, t⟩

/-- The watch loop entered at time t0 with fresh state (changedFromShell
false, lastShellSeenAt 0). -/
def watchLoop (pollRead : Nat → Option JStr) (shellCommand : JStr)
    (deadline startedAt stableMs t0 : Nat) : WatchResult :=
  watchLoopAux pollRead shellCommand deadline startedAt stableMs deadline t0 false 0

/-- Result of executeAndPrintPaneDiff: the external-effect trace and, unless
the mutating action threw, the timed-out flag, the returned exit code and the
printed diff output. -/
structure SettleRun where
  events : List Event
  result : Option (Bool × Nat × JStr)
  deriving DecidableEq

/-- src/index.ts executeAndPrintPaneDiff: capture a before-snapshot (failure
caught into the empty string), read the baseline foreground command, run the
caller-supplied mutating action once, watch until stable or deadline, capture
an after-snapshot (failure caught into the empty string), diff, print, and
return 124 on timeout, 0 on settle.  A throwing action propagates to the
caller: result is none and no polls or after-capture happen. -/
def executeAndPrintPaneDiff (env : PaneEnv) (t0 timeoutMs stableMs : Nat) : SettleRun :=
  let beforePane := (capturePane env.captureBefore).getD []
  let shellCommand := getPaneCurrentCommand env.shellRead
  if env.sendOk then
    let w := watchLoop env.poll shellCommand (t0 + timeoutMs) t0 stableMs t0
    let afterPane := (capturePane env.captureAfter).getD []
    let diffOutput := diffLines beforePane afterPane
    { events := [Event.capturePane (-50000), Event.readBaseline, Event.act] ++
        w.polls.map Event.poll ++ [Event.capturePane (-50000)],
      result := some (w.timedOut, if w.timedOut then 124 else 0, diffOutput) }
  else
    { events := [Event.capturePane (-50000), Event.readBaseline, Event.act],
      result := none }

/-- src/index.ts run subcommand after argument validation: resolve the
session by exact name, resolve the active pane, then run the settle cycle;
a failed resolution or a throwing send exits 1, otherwise the settle cycle's
code (0 or 124) is the process exit code. -/
def runCmd (sessions : List JStr) (sessionName : JStr) (rawPane : Option JStr)
    (env : PaneEnv) (t0 : Nat) : Nat :=
  match sessions.find? (fun s => s = sessionName) with
  | none => 1
  | some _ =>
    if getActivePaneId rawPane = [] then 1
    else
      match (executeAndPrintPaneDiff env t0 5000 500).result with
      | some (_, code, _) => code
      | none => 1

/-- src/index.ts keys subcommand after argument validation: same resolution
and exit-code structure as run, with the key-token send as the action. -/
def keysCmd (sessions : List JStr) (sessionName : JStr) (rawPane : Option JStr)
    (env : PaneEnv) (t0 : Nat) : Nat :=
  match sessions.find? (fun s => s = sessionName) with
  | none => 1
  | some _ =>
    if getActivePaneId rawPane = [] then 1
    else
      match (executeAndPrintPaneDiff env t0 5000 500).result with
      | some (_, code, _) => code
      | none => 1

/-- What the tail subcommand prints on each of its exits. -/
inductive TailOut where
  | usage
  | posIntMsg
  | notFound (name : JStr)
  | paneMsg (name : JStr)
  | printed (out : JStr)
  deriving DecidableEq

/-- The flag loop of the tail subcommand over the arguments after the session
name: a -l or --lines flag consumes the next value, which must have a decimal
prefix parsing to an integer at least 1 (otherwise the positive-integer
message); a missing or empty value and any other argument print the usage. -/
def parseTailFlags : List JStr → Int → Except TailOut Int
  | [], lineCount => Except.ok lineCount
  | arg :: rest, _lineCount =>
    if arg = js "-l" ∨ arg = js "--lines" then
      match rest with
      | [] => Except.error TailOut.usage
      | v :: rest2 =>
        if v = [] then Except.error TailOut.usage
        else
          match jsParseInt v with
          | none => Except.error TailOut.posIntMsg
          | some m =>
            if m < 1 then Except.error TailOut.posIntMsg
            else parseTailFlags rest2 m
    else Except.error TailOut.usage

/-- src/index.ts tail subcommand: parse arguments (exiting 1 with no external
call on a validation error, line count defaulting to 10), then resolve the
session and pane and print one capture of the last lineCount lines.  Returns
the exit code, what is printed, and the external calls made. -/
def tailCmd (tailArgs : List JStr) (sessions : List JStr) (rawPane : Option JStr)
    (capture : Option JStr) : Nat × TailOut × List Event :=
  match tailArgs with
  | [] => (1, TailOut.usage, [])
  | sessionName :: rest =>
    match parseTailFlags rest 10 with
    | Except.error e => (1, e, [])
    | Except.ok lineCount =>
      match sessions.find? (fun s => s = sessionName) with
      | none => (1, TailOut.notFound sessionName, [Event.listSessions])
      | some matchedName =>
        if getActivePaneId rawPane = [] then
          (1, TailOut.paneMsg matchedName, [Event.listSessions, Event.resolvePane])
        else
          (0, TailOut.printed (trimEnd ((capturePane capture).getD [])),
            [Event.listSessions, Event.resolvePane, Event.capturePane (-lineCount)])

/-- Concrete settle environment whose foreground polls never match the
baseline (a long-running foreground program). -/
def envNB : PaneEnv :=
  { captureBefore := some (js "$ ")
    captureAfter := some (js "$ sleep 10")
    shellRead := some (js "zsh\n")
    poll := fun _ => some (js "sleep\n")
    sendOk := true }

/-- Concrete settle environment whose foreground polls always equal the
baseline (a command that finishes too fast to be observed). -/
def envFB : PaneEnv :=
  { captureBefore := some (js "$ ")
    captureAfter := some (js "$ true\n$ ")
    shellRead := some (js "zsh\n")
    poll := fun _ => some (js "zsh")
    sendOk := true }

/-- Concrete settle environment whose mutating action throws. -/
def envSendFail : PaneEnv :=
  { captureBefore := some []
    captureAfter := some []
    shellRead := some []
    poll := fun _ => some []
    sendOk := false }

/-- Concrete settle environment whose capture-pane calls both fail while the
send succeeds and the foreground stays at the baseline. -/
def envCapFail : PaneEnv :=
  { captureBefore := none
    captureAfter := none
    shellRead := some (js "zsh")
    poll := fun _ => some (js "zsh")
    sendOk := true }

theorem dropCommon_append (l k : List JStr) : dropCommon l (l ++ k) = k := by
  induction l with
  | nil => cases k <;> rfl
  | cons b bs ih => simpa [dropCommon] using ih

theorem dropCommon_eq_drop (bs afs : List JStr) :
    dropCommon bs afs = afs.drop (longestCommonPrefixLen bs afs) := by
  induction bs generalizing afs with
  | nil => cases afs <;> simp [dropCommon, longestCommonPrefixLen]
  | cons b bs2 ih =>
    cases afs with
    | nil => simp [dropCommon, longestCommonPrefixLen]
    | cons a afs2 =>
      by_cases h : b = a
      · simp [dropCommon, longestCommonPrefixLen, h, ih]
      · simp [dropCommon, longestCommonPrefixLen, h]

theorem replaceQuotes_eq_flatMap (v : JStr) :
    replaceQuotes v = v.flatMap
      (fun c => if c = squote then [squote, dquote, squote, dquote, squote] else [c]) := by
  induction v with
  | nil => rfl
  | cons c cs ih => by_cases h : c = squote <;> simp [replaceQuotes, h, ih]

theorem executeAndPrintPaneDiff_eq (env : PaneEnv) (t0 timeoutMs stableMs : Nat) :
    executeAndPrintPaneDiff env t0 timeoutMs stableMs =
      if env.sendOk then
        { events := [Event.capturePane (-50000), Event.readBaseline, Event.act] ++
            (watchLoop env.poll (getPaneCurrentCommand env.shellRead)
              (t0 + timeoutMs) t0 stableMs t0).polls.map Event.poll ++
            [Event.capturePane (-50000)],
          result := some
            ((watchLoop env.poll (getPaneCurrentCommand env.shellRead)
                (t0 + timeoutMs) t0 stableMs t0).timedOut,
             (if (watchLoop env.poll (getPaneCurrentCommand env.shellRead)
                (t0 + timeoutMs) t0 stableMs t0).timedOut then 124 else 0),
             diffLines ((capturePane env.captureBefore).getD [])
               ((capturePane env.captureAfter).getD [])) }
      else
        { events := [Event.capturePane (-50000), Event.readBaseline, Event.act],
          result := none } := rfl

/-- Claim C5: the differ is prefix-anchored and never content-aware: its
output is the suffix of the after lines starting at the end of the longest
common line prefix with before, joined on newline with trailing whitespace
trimmed, and on equal snapshots it is empty. -/
theorem diff_prefix_anchored (before after : JStr) :
    diffLines before after =
      trimEnd (joinSep [nlChar]
        ((splitLines after).drop
          (longestCommonPrefixLen (splitLines before) (splitLines after)))) ∧
    diffLines after after = [] := by
  constructor
  · unfold diffLines
    rw [dropCommon_eq_drop]
  · unfold diffLines
    rw [show dropCommon (splitLines after) (splitLines after) = [] from by
      simpa using dropCommon_append (splitLines after) []]
    rfl

/-- Claim C4 (amended): when the after snapshot is the before snapshot with K
lines appended and nothing else changed, diffLines returns exactly those K
appended lines joined on newline, with trailing whitespace trimmed from the
end of the result. -/
theorem diff_appended_lines_trimmed (before after : JStr) (bs ks : List JStr)
    (h1 : splitLines before = bs) (h2 : splitLines after = bs ++ ks) :
    diffLines before after = trimEnd (joinSep [nlChar] ks) := by
  unfold diffLines
  rw [h1, h2, dropCommon_append]

/-- Claim C4 fails as stated: appending the single line consisting of b and a
trailing space to the one-line snapshot a makes diffLines return just b, not
the appended line itself (the trailing space is trimmed). -/
theorem diff_appended_lines_cex :
    splitLines (js "a\nb ") = splitLines (js "a") ++ [js "b "] ∧
    diffLines (js "a") (js "a\nb ") ≠ joinSep [nlChar] [js "b "] := by
  decide

/-- Witness for Claim C4's amended theorem at a concrete appended line. -/
theorem diff_appended_lines_trimmed_witness :
    splitLines (js "a") = [js "a"] ∧
    splitLines (js "a\nb") = [js "a"] ++ [js "b"] ∧
    diffLines (js "a") (js "a\nb") = trimEnd (joinSep [nlChar] [js "b"]) :=
  ⟨by decide, by decide,
    diff_appended_lines_trimmed (js "a") (js "a\nb") [js "a"] [js "b"]
      (by decide) (by decide)⟩

/-- Claim C7: run builds the command line verbatim from a single trailing
argument; from two or more it single-quote-escapes each argument (each
embedded single quote becoming the quote, double quote, quote, double quote,
quote idiom) and joins them with single spaces; and its mutating action is
one literal-text send of that line followed by a separate C-m submit send. -/
theorem run_command_build_and_send :
    (∀ a : JStr, buildRunCommand [a] = a) ∧
    (∀ commandArgs : List JStr, 2 ≤ commandArgs.length →
      buildRunCommand commandArgs = joinSep (js " ") (commandArgs.map shellEscape)) ∧
    (∀ value : JStr, shellEscape value =
      squote :: ((value.flatMap fun c =>
        if c = squote then [squote, dquote, squote, dquote, squote] else [c]) ++
        [squote])) ∧
    (∀ commandText : JStr, runAction commandText =
      [SendEvent.sendLiteral commandText, SendEvent.sendKey (js "C-m")]) := by
  refine ⟨fun a => rfl, fun commandArgs h => ?_, fun value => ?_, fun _ => rfl⟩
  · unfold buildRunCommand
    rw [if_neg (by omega)]
  · unfold shellEscape
    rw [replaceQuotes_eq_flatMap]

/-- Witness for Claim C7 at concrete argument lists, including one with an
embedded single quote. -/
theorem run_command_build_and_send_witness :
    buildRunCommand [js "echo hi && ls"] = js "echo hi && ls" ∧
    buildRunCommand [js "echo", js "b" ++ [squote] ++ js "c"] =
      joinSep (js " ") ([js "echo", js "b" ++ [squote] ++ js "c"].map shellEscape) :=
  ⟨run_command_build_and_send.1 (js "echo hi && ls"),
   run_command_build_and_send.2.1 [js "echo", js "b" ++ [squote] ++ js "c"] (by decide)⟩

/-- Claim C9 (amended): with no lines flag the line count defaults to 10;
a lines-flag value whose decimal prefix does not parse or is below 1 makes
the process print the one-line positive-integer error message (not the usage
text) and exit 1 with no external multiplexer call; a missing or empty flag
value prints the usage text and exits 1 with no external call. -/
theorem tail_validation_amended :
    (∀ s sessions rawPane capture,
      (sessions.find? (fun x => x = s)).isSome = true →
      getActivePaneId rawPane ≠ [] →
      tailCmd [s] sessions rawPane capture =
        (0, TailOut.printed (trimEnd ((capturePane capture).getD [])),
          [Event.listSessions, Event.resolvePane, Event.capturePane (-10)])) ∧
    (∀ s flag v sessions rawPane capture,
      (flag = js "-l" ∨ flag = js "--lines") → v ≠ [] →
      (jsParseInt v = none ∨ ∃ m, jsParseInt v = some m ∧ m < 1) →
      tailCmd [s, flag, v] sessions rawPane capture = (1, TailOut.posIntMsg, [])) ∧
    (∀ s flag sessions rawPane capture,
      (flag = js "-l" ∨ flag = js "--lines") →
      tailCmd [s, flag] sessions rawPane capture = (1, TailOut.usage, [])) := by
  refine ⟨?_, ?_, ?_⟩
  · intro s sessions rawPane capture hs hp
    obtain ⟨m, hm⟩ := Option.isSome_iff_exists.mp hs
    simp [tailCmd, parseTailFlags, hm, hp]
  · intro s flag v sessions rawPane capture hf hv hbad
    rcases hbad with hnone | ⟨m, hm, hlt⟩
    · rcases hf with rfl | rfl <;> simp [tailCmd, parseTailFlags, hv, hnone]
    · rcases hf with rfl | rfl <;> simp [tailCmd, parseTailFlags, hv, hm, hlt]
  · intro s flag sessions rawPane capture hf
    rcases hf with rfl | rfl <;> simp [tailCmd, parseTailFlags]

/-- Claim C9 fails as stated on the printed text: a non-positive -l value
exits 1 with no external call but prints the positive-integer message, which
is not the usage text. -/
theorem tail_nonpositive_message_cex :
    tailCmd [js "api", js "-l", js "0"] [] none none = (1, TailOut.posIntMsg, []) ∧
    TailOut.posIntMsg ≠ TailOut.usage := by
  decide

/-- Witness for Claim C9's amended theorem at concrete invocations. -/
theorem tail_validation_amended_witness :
    tailCmd [js "api"] [js "api"] (some (js "%1")) (some (js "out")) =
      (0, TailOut.printed (trimEnd ((capturePane (some (js "out"))).getD [])),
        [Event.listSessions, Event.resolvePane, Event.capturePane (-10)]) ∧
    tailCmd [js "api", js "--lines", js "-3"] [js "api"] (some (js "%1")) (some (js "out")) =
      (1, TailOut.posIntMsg, []) ∧
    tailCmd [js "api", js "-l"] [js "api"] (some (js "%1")) (some (js "out")) =
      (1, TailOut.usage, []) :=
  ⟨tail_validation_amended.1 (js "api") [js "api"] (some (js "%1")) (some (js "out"))
      (by decide) (by decide),
   tail_validation_amended.2.1 (js "api") (js "--lines") (js "-3") [js "api"]
      (some (js "%1")) (some (js "out")) (Or.inr rfl) (by decide)
      (Or.inr ⟨-3, by decide, by decide⟩),
   tail_validation_amended.2.2 (js "api") (js "-l") [js "api"]
      (some (js "%1")) (some (js "out")) (Or.inl rfl)⟩

/-- Claim C10: the lines-flag value goes through decimal prefix parsing before
the positive-integer check, so any string whose leading numeric prefix parses
to an integer at least 1 is accepted with that prefix as the line count, and
a string with no parseable prefix or a prefix below 1 is rejected with exit 1. -/
theorem tail_parseint_prefix (s v : JStr) (sessions : List JStr)
    (rawPane capture : Option JStr) (hv : v ≠ [])
    (hs : (sessions.find? (fun x => x = s)).isSome = true)
    (hp : getActivePaneId rawPane ≠ []) :
    tailCmd [s, js "-l", v] sessions rawPane capture =
      (match jsParseInt v with
      | some n =>
        if 1 ≤ n then
          (0, TailOut.printed (trimEnd ((capturePane capture).getD [])),
            [Event.listSessions, Event.resolvePane, Event.capturePane (-n)])
        else (1, TailOut.posIntMsg, [])
      | none => (1, TailOut.posIntMsg, [])) := by
  obtain ⟨m, hm⟩ := Option.isSome_iff_exists.mp hs
  cases hpi : jsParseInt v with
  | none => simp [tailCmd, parseTailFlags, hv, hpi]
  | some n =>
    by_cases hn : n < 1
    · simp [tailCmd, parseTailFlags, hv, hpi, hn, if_neg (show ¬(1:Int) ≤ n by omega)]
    · simp [tailCmd, parseTailFlags, hv, hpi, hn, hm, hp,
        if_pos (show (1:Int) ≤ n by omega)]

/-- Witness for Claim C10: the value 3.7 is accepted and the line count is 3. -/
theorem tail_parseint_prefix_witness :
    tailCmd [js "api", js "-l", js "3.7"] [js "api"] (some (js "%1")) (some (js "out")) =
      (0, TailOut.printed (js "out"),
        [Event.listSessions, Event.resolvePane, Event.capturePane (-3)]) := by
  have h := tail_parseint_prefix (js "api") (js "3.7") [js "api"] (some (js "%1"))
    (some (js "out")) (by decide) (by decide) (by decide)
  rw [h]
  decide

theorem watchLoopAux_nonbaseline (pollRead : Nat → Option JStr) (shellCommand : JStr)
    (deadline startedAt stableMs : Nat)
    (hm : ∀ u, getPaneCurrentCommand (pollRead u) ≠ shellCommand) :
    ∀ fuel t changed lastSeen, t ≤ deadline → 100 ∣ (deadline - t) →
      deadline ≤ t + 100 * fuel →
      (watchLoopAux pollRead shellCommand deadline startedAt stableMs
        fuel t changed lastSeen).timedOut = true ∧
      (watchLoopAux pollRead shellCommand deadline startedAt stableMs
        fuel t changed lastSeen).exitTime = deadline := by
  intro fuel
  induction fuel with
  | zero =>
    intro t changed lastSeen h1 h2 h3
    have ht : t = deadline := by omega
    subst ht
    simp [watchLoopAux]
  | succ f ih =>
    intro t changed lastSeen h1 h2 h3
    by_cases hlt : t < deadline
    · obtain ⟨c, hc⟩ := h2
      obtain ⟨ih1, ih2⟩ := ih (t + 100) true 0 (by omega) ⟨c - 1, by omega⟩ (by omega)
      simp [watchLoopAux, hlt, hm t, ih1, ih2]
    · have ht : t = deadline := by omega
      subst ht
      simp [watchLoopAux, hlt]

theorem watchLoopAux_baseline_stable (pollRead : Nat → Option JStr)
    (shellCommand : JStr) (t0 : Nat)
    (hb : ∀ u, getPaneCurrentCommand (pollRead u) = shellCommand) :
    ∀ fuel t, t0 + 300 ≤ t → t ≤ t0 + 800 → 100 ∣ (t - t0) →
      t0 + 900 ≤ t + 100 * fuel →
      (watchLoopAux pollRead shellCommand (t0 + 5000) t0 500
        fuel t false (t0 + 300)).timedOut = false ∧
      (watchLoopAux pollRead shellCommand (t0 + 5000) t0 500
        fuel t false (t0 + 300)).exitTime = t0 + 800 := by
  intro fuel
  induction fuel with
  | zero =>
    intro t h1 h2 h3 h4
    omega
  | succ f ih =>
    intro t h1 h2 h3 h4
    obtain ⟨c, hc⟩ := h3
    have hlt : t < t0 + 5000 := by omega
    by_cases hst : (500 : Nat) ≤ t - (t0 + 300)
    · have ht : t = t0 + 800 := by omega
      subst ht
      simp [watchLoopAux, hlt, hb, hst,
        show ¬(t0 + 800 - t0 < 250) from by omega,
        show t0 + 300 ≠ 0 from by omega]
    · obtain ⟨ih1, ih2⟩ := ih (t + 100) (by omega) (by omega) ⟨c + 1, by omega⟩ (by omega)
      simp [watchLoopAux, hlt, hb, hst, ih1, ih2,
        show ¬(t - t0 < 250) from by omega,
        show t0 + 300 ≠ 0 from by omega]

theorem watchLoopAux_baseline_grace (pollRead : Nat → Option JStr)
    (shellCommand : JStr) (t0 : Nat)
    (hb : ∀ u, getPaneCurrentCommand (pollRead u) = shellCommand) :
    ∀ fuel t, t0 ≤ t → t ≤ t0 + 300 → 100 ∣ (t - t0) →
      t0 + 900 ≤ t + 100 * fuel →
      (watchLoopAux pollRead shellCommand (t0 + 5000) t0 500
        fuel t false 0).timedOut = false ∧
      (watchLoopAux pollRead shellCommand (t0 + 5000) t0 500
        fuel t false 0).exitTime = t0 + 800 := by
  intro fuel
  induction fuel with
  | zero =>
    intro t h1 h2 h3 h4
    omega
  | succ f ih =>
    intro t h1 h2 h3 h4
    obtain ⟨c, hc⟩ := h3
    have hlt : t < t0 + 5000 := by omega
    by_cases hg : t - t0 < 250
    · obtain ⟨ih1, ih2⟩ := ih (t + 100) (by omega) (by omega) ⟨c + 1, by omega⟩ (by omega)
      simp [watchLoopAux, hlt, hb, hg, ih1, ih2]
    · have ht : t = t0 + 300 := by omega
      subst ht
      obtain ⟨m1, m2⟩ := watchLoopAux_baseline_stable pollRead shellCommand t0 hb
        f (t0 + 300 + 100) (by omega) (by omega) ⟨4, by omega⟩ (by omega)
      simp [watchLoopAux, hlt, hb, hg, m1, m2]

/-- Claim C1: if every poll of the pane's foreground-process name differs from
the baseline command captured before the mutating action, the detector never
settles: the watch loop exits with timed out = true exactly at the t0 + 5000
deadline (the first poll boundary at or after the deadline), and the cycle
still captures an after-snapshot, diffs it against the before-snapshot, and
returns exit code 124 together with the accumulated diff output. -/
theorem settle_nonbaseline_times_out (env : PaneEnv) (t0 : Nat)
    (hm : ∀ u, getPaneCurrentCommand (env.poll u) ≠ getPaneCurrentCommand env.shellRead)
    (hs : env.sendOk = true) :
    (watchLoop env.poll (getPaneCurrentCommand env.shellRead)
      (t0 + 5000) t0 500 t0).timedOut = true ∧
    (watchLoop env.poll (getPaneCurrentCommand env.shellRead)
      (t0 + 5000) t0 500 t0).exitTime = t0 + 5000 ∧
    (executeAndPrintPaneDiff env t0 5000 500).result =
      some (true, 124,
        diffLines ((capturePane env.captureBefore).getD [])
          ((capturePane env.captureAfter).getD [])) ∧
    (executeAndPrintPaneDiff env t0 5000 500).events =
      [Event.capturePane (-50000), Event.readBaseline, Event.act] ++
        (watchLoop env.poll (getPaneCurrentCommand env.shellRead)
          (t0 + 5000) t0 500 t0).polls.map Event.poll ++
        [Event.capturePane (-50000)] := by
  obtain ⟨h1, h2⟩ := watchLoopAux_nonbaseline env.poll
    (getPaneCurrentCommand env.shellRead) (t0 + 5000) t0 500 hm
    (t0 + 5000) t0 false 0 (by omega) ⟨50, by omega⟩ (by omega)
  have hw1 : (watchLoop env.poll (getPaneCurrentCommand env.shellRead)
      (t0 + 5000) t0 500 t0).timedOut = true := h1
  have hw2 : (watchLoop env.poll (getPaneCurrentCommand env.shellRead)
      (t0 + 5000) t0 500 t0).exitTime = t0 + 5000 := h2
  refine ⟨hw1, hw2, ?_, ?_⟩
  · rw [executeAndPrintPaneDiff_eq, if_pos hs]
    simp [hw1]
  · rw [executeAndPrintPaneDiff_eq, if_pos hs]

/-- Witness for Claim C1 in a concrete environment whose foreground polls all
report sleep against a zsh baseline. -/
theorem settle_nonbaseline_times_out_witness :
    (watchLoop envNB.poll (getPaneCurrentCommand envNB.shellRead)
      (1000 + 5000) 1000 500 1000).timedOut = true ∧
    (watchLoop envNB.poll (getPaneCurrentCommand envNB.shellRead)
      (1000 + 5000) 1000 500 1000).exitTime = 1000 + 5000 ∧
    (executeAndPrintPaneDiff envNB 1000 5000 500).result =
      some (true, 124,
        diffLines ((capturePane envNB.captureBefore).getD [])
          ((capturePane envNB.captureAfter).getD [])) ∧
    (executeAndPrintPaneDiff envNB 1000 5000 500).events =
      [Event.capturePane (-50000), Event.readBaseline, Event.act] ++
        (watchLoop envNB.poll (getPaneCurrentCommand envNB.shellRead)
          (1000 + 5000) 1000 500 1000).polls.map Event.poll ++
        [Event.capturePane (-50000)] :=
  settle_nonbaseline_times_out envNB 1000
    (fun u => by
      show getPaneCurrentCommand (some (js "sleep\n")) ≠
        getPaneCurrentCommand envNB.shellRead
      decide)
    rfl

/-- Claim C2: if every poll of the foreground-process name equals the baseline
command (the fast-command case) the detector keeps polling through the 250ms
grace period without starting the stability timer, then starts it at the
first poll at or past the grace period and settles with timed out = false and
exit code 0 once the baseline has held for the 500ms stability window: it
exits at t0 + 800, at or after the grace period and strictly before the
t0 + 5000 deadline. -/
theorem settle_fast_baseline_settles (env : PaneEnv) (t0 : Nat)
    (hb : ∀ u, getPaneCurrentCommand (env.poll u) = getPaneCurrentCommand env.shellRead)
    (hs : env.sendOk = true) :
    (watchLoop env.poll (getPaneCurrentCommand env.shellRead)
      (t0 + 5000) t0 500 t0).timedOut = false ∧
    (watchLoop env.poll (getPaneCurrentCommand env.shellRead)
      (t0 + 5000) t0 500 t0).exitTime = t0 + 800 ∧
    t0 + 250 ≤ (watchLoop env.poll (getPaneCurrentCommand env.shellRead)
      (t0 + 5000) t0 500 t0).exitTime ∧
    (watchLoop env.poll (getPaneCurrentCommand env.shellRead)
      (t0 + 5000) t0 500 t0).exitTime < t0 + 5000 ∧
    (executeAndPrintPaneDiff env t0 5000 500).result =
      some (false, 0,
        diffLines ((capturePane env.captureBefore).getD [])
          ((capturePane env.captureAfter).getD [])) := by
  obtain ⟨h1, h2⟩ := watchLoopAux_baseline_grace env.poll
    (getPaneCurrentCommand env.shellRead) t0 hb
    (t0 + 5000) t0 (le_refl t0) (by omega) ⟨0, by omega⟩ (by omega)
  have hw1 : (watchLoop env.poll (getPaneCurrentCommand env.shellRead)
      (t0 + 5000) t0 500 t0).timedOut = false := h1
  have hw2 : (watchLoop env.poll (getPaneCurrentCommand env.shellRead)
      (t0 + 5000) t0 500 t0).exitTime = t0 + 800 := h2
  refine ⟨hw1, hw2, by omega, by omega, ?_⟩
  rw [executeAndPrintPaneDiff_eq, if_pos hs]
  simp [hw1]

/-- Witness for Claim C2 in a concrete environment whose foreground polls all
report the zsh baseline. -/
theorem settle_fast_baseline_settles_witness :
    (watchLoop envFB.poll (getPaneCurrentCommand envFB.shellRead)
      (1000 + 5000) 1000 500 1000).timedOut = false ∧
    (watchLoop envFB.poll (getPaneCurrentCommand envFB.shellRead)
      (1000 + 5000) 1000 500 1000).exitTime = 1000 + 800 ∧
    1000 + 250 ≤ (watchLoop envFB.poll (getPaneCurrentCommand envFB.shellRead)
      (1000 + 5000) 1000 500 1000).exitTime ∧
    (watchLoop envFB.poll (getPaneCurrentCommand envFB.shellRead)
      (1000 + 5000) 1000 500 1000).exitTime < 1000 + 5000 ∧
    (executeAndPrintPaneDiff envFB 1000 5000 500).result =
      some (false, 0,
        diffLines ((capturePane envFB.captureBefore).getD [])
          ((capturePane envFB.captureAfter).getD [])) :=
  settle_fast_baseline_settles envFB 1000
    (fun u => by
      show getPaneCurrentCommand (some (js "zsh")) =
        getPaneCurrentCommand envFB.shellRead
      decide)
    rfl

/-- Claim C3: after argument validation, run and keys obey the three-way
exit-code contract: 0 when the settle detector settles before the deadline,
124 when the deadline elapses without settling, 1 exactly when resolution or
sending fails (session not found, active pane unresolvable, send throws), and
no other exit code is possible; keys behaves identically to run. -/
theorem run_keys_exit_code_contract (sessions : List JStr) (sessionName : JStr)
    (rawPane : Option JStr) (env : PaneEnv) (t0 : Nat) :
    runCmd sessions sessionName rawPane env t0 =
      (if (sessions.find? (fun s => s = sessionName)).isSome = true ∧
          getActivePaneId rawPane ≠ [] ∧ env.sendOk = true then
        (if (watchLoop env.poll (getPaneCurrentCommand env.shellRead)
            (t0 + 5000) t0 500 t0).timedOut then 124 else 0)
      else 1) ∧
    keysCmd sessions sessionName rawPane env t0 = runCmd sessions sessionName rawPane env t0 ∧
    (runCmd sessions sessionName rawPane env t0 = 0 ∨
     runCmd sessions sessionName rawPane env t0 = 1 ∨
     runCmd sessions sessionName rawPane env t0 = 124) := by
  have hr : runCmd sessions sessionName rawPane env t0 =
      (if (sessions.find? (fun s => s = sessionName)).isSome = true ∧
          getActivePaneId rawPane ≠ [] ∧ env.sendOk = true then
        (if (watchLoop env.poll (getPaneCurrentCommand env.shellRead)
            (t0 + 5000) t0 500 t0).timedOut then 124 else 0)
      else 1) := by
    cases hfind : sessions.find? (fun s => s = sessionName) with
    | none => simp [runCmd, hfind]
    | some m =>
      by_cases hp : getActivePaneId rawPane = []
      · simp [runCmd, hfind, hp]
      · cases hsend : env.sendOk with
        | false => simp [runCmd, hfind, hp, executeAndPrintPaneDiff_eq, hsend]
        | true => simp [runCmd, hfind, hp, executeAndPrintPaneDiff_eq, hsend]
  refine ⟨hr, rfl, ?_⟩
  rw [hr]
  split_ifs <;> simp

/-- Claim C6 (amended): a failing send is fatal for the invocation - run and
keys exit 1 and the action is issued once and never retried - but a failing
capture or a failing baseline foreground read inside the settle cycle is not
fatal: it is caught at the call site into empty-string substitute data, the
cycle behaves exactly as if the reads had returned empty strings, and with a
successful send it always completes with an outcome. -/
theorem send_fatal_capture_swallowed :
    (∀ (sessions : List JStr) (sessionName : JStr) (rawPane : Option JStr)
        (env : PaneEnv) (t0 : Nat),
      env.sendOk = false →
      runCmd sessions sessionName rawPane env t0 = 1 ∧
      keysCmd sessions sessionName rawPane env t0 = 1 ∧
      (executeAndPrintPaneDiff env t0 5000 500).events.count Event.act = 1) ∧
    (∀ (env : PaneEnv) (t0 timeoutMs stableMs : Nat),
      executeAndPrintPaneDiff
        { env with
          captureBefore := none
          captureAfter := none
          shellRead := none }
        t0 timeoutMs stableMs =
      executeAndPrintPaneDiff
        { env with
          captureBefore := some []
          captureAfter := some []
          shellRead := some [] }
        t0 timeoutMs stableMs) ∧
    (∀ (env : PaneEnv) (t0 timeoutMs stableMs : Nat), env.sendOk = true →
      ((executeAndPrintPaneDiff env t0 timeoutMs stableMs).result).isSome = true) := by
  refine ⟨?_, ?_, ?_⟩
  · intro sessions sessionName rawPane env t0 hsend
    refine ⟨?_, ?_, ?_⟩
    · cases hfind : sessions.find? (fun s => s = sessionName) with
      | none => simp [runCmd, hfind]
      | some m =>
        by_cases hp : getActivePaneId rawPane = [] <;>
          simp [runCmd, hfind, hp, executeAndPrintPaneDiff_eq, hsend]
    · cases hfind : sessions.find? (fun s => s = sessionName) with
      | none => simp [keysCmd, hfind]
      | some m =>
        by_cases hp : getActivePaneId rawPane = [] <;>
          simp [keysCmd, hfind, hp, executeAndPrintPaneDiff_eq, hsend]
    · rw [executeAndPrintPaneDiff_eq, if_neg (by simp [hsend])]
      decide
  · intro env t0 timeoutMs stableMs
    rw [executeAndPrintPaneDiff_eq, executeAndPrintPaneDiff_eq]
    simp [capturePane, getPaneCurrentCommand]
  · intro env t0 timeoutMs stableMs hsend
    rw [executeAndPrintPaneDiff_eq, if_pos hsend]
    rfl

/-- Claim C6 fails as stated: with both capture-pane calls failing but the
send succeeding and the foreground staying at the baseline, the run
invocation continues the settle cycle on empty substitute data and exits 0,
not 1. -/
theorem access_failure_swallowed_cex :
    envCapFail.captureBefore = none ∧ envCapFail.captureAfter = none ∧
    runCmd [js "api"] (js "api") (some (js "%1")) envCapFail 1000 = 0 := by
  refine ⟨rfl, rfl, ?_⟩
  decide

/-- Witness for Claim C6's amended theorem at a concrete failing send. -/
theorem send_fatal_capture_swallowed_witness :
    runCmd [js "api"] (js "api") (some (js "%1")) envSendFail 1000 = 1 ∧
    keysCmd [js "api"] (js "api") (some (js "%1")) envSendFail 1000 = 1 ∧
    (executeAndPrintPaneDiff envSendFail 1000 5000 500).events.count Event.act = 1 :=
  send_fatal_capture_swallowed.1 [js "api"] (js "api") (some (js "%1"))
    envSendFail 1000 rfl

/-- Claim C8: in every settle cycle the caller-supplied mutating action occurs
exactly once in the external-effect trace, strictly after the before-capture
and baseline read and strictly before every foreground poll, on every path
including the timeout and the throwing-send paths. -/
theorem mutating_action_once_before_polls (env : PaneEnv) (t0 timeoutMs stableMs : Nat) :
    ∃ pre post,
      (executeAndPrintPaneDiff env t0 timeoutMs stableMs).events =
        pre ++ Event.act :: post ∧
      Event.act ∉ pre ∧ Event.act ∉ post ∧ (∀ u, Event.poll u ∉ pre) := by
  cases hsend : env.sendOk with
  | true =>
    refine ⟨[Event.capturePane (-50000), Event.readBaseline],
      (watchLoop env.poll (getPaneCurrentCommand env.shellRead)
        (t0 + timeoutMs) t0 stableMs t0).polls.map Event.poll ++
        [Event.capturePane (-50000)], ?_, by decide, ?_, ?_⟩
    · rw [executeAndPrintPaneDiff_eq, if_pos hsend]
      simp
    · simp
    · intro u
      simp
  | false =>
    refine ⟨[Event.capturePane (-50000), Event.readBaseline], [], ?_, by decide, by decide, ?_⟩
    · rw [executeAndPrintPaneDiff_eq, if_neg (by simp [hsend])]
      rfl
    · intro u
      simp
